import Mathlib

/-
Verification development for the prompt-budget content-adjustment core of the
bountrip API (src/services/ai.service.js, second revision of the file — the one
with json_schema support; it is the revision the claims' line numbers refer to).

Modelling conventions:
* Text values (JS strings) are embedded as `List Char`; `str.length` is
  `List.length`, `str.slice(0, -n)` for `1 ≤ n ≤ str.length` is
  `List.take (str.length - n)`.
* The external token estimator `promptTokensEstimate` (npm package
  openai-chat-tokens) is not part of this repository; all theorems are
  parametric in an estimator `est : List Message → Nat` (the spec only says it
  returns an integer ≥ 0).  `estChars` below is a concrete sample estimator
  used to evaluate the definitions on closed inputs.
* JS numbers that the code treats as integers are embedded as `Int`
  (`targetTokens = contextWindow - reservedTokens` may be negative) or `Nat`.
* Fallible code paths (`throw`) are embedded as `Except AIError`.
-/

/-- A chat message; history entries and the synthetic system/user wrappers
built by the service (role is "system", "user", "assistant" or "tool"). -/
structure Message where
  role : String
  content : List Char
deriving Repr, DecidableEq

/-- The message list the service builds both for estimation and for the
outbound request: `[{role: 'system', content: system}, ...history,
{role: 'user', content: prompt}]` (ai.service.js lines 284-288 and 426-430). -/
def toMessages (system : List Char) (history : List Message) (prompt : List Char) :
    List Message :=
  ⟨"system", system⟩ :: history ++ [⟨"user", prompt⟩]

/-- Result record of `adjustContent` (ai.service.js line 485). -/
structure AdjustedContent where
  system : List Char
  history : List Message
  prompt : List Char
deriving Repr, DecidableEq

/-- chunkSize = Math.ceil(tokensOver * 0.5) (ai.service.js line 448).  For a
natural `tokensOver`, `Math.ceil(tokensOver * 0.5)` is exactly
`(tokensOver + 1) / 2` in natural division (the float product is exact below
2^53 and ceiling of n/2 is (n+1)/2). -/
def chunkSize (tokensOver : Nat) : Nat :=
  (tokensOver + 1) / 2

/-- charsToRemove = chunkSize * approxCharsPerToken with approxCharsPerToken
= 4 (ai.service.js lines 451-452). -/
def charsToRemoveFor (tokensOver : Nat) : Nat :=
  chunkSize tokensOver * 4

/-- The while-loop of `adjustContent` (ai.service.js lines 437-481), with the
iteration budget made an explicit fuel argument: the source increments
`iteration` on loop entry and breaks once `iteration > maxIterations = 100`,
so exactly `fuel = 100` trimming actions are allowed.  The second component of
the result counts the trimming actions actually performed.  In the trim
branches `trimLength ≥ 1` always holds (tokensOver ≥ 1 forces
charsToRemove ≥ 4, and the branch guard forces `length - 50 ≥ 1`), so
`str.slice(0, -trimLength)` is `List.take (length - trimLength)`. -/
def adjustContentAux (est : List Message → Nat) (targetTokens : Int) (fuel : Nat)
    (system : List Char) (history : List Message) (prompt : List Char) :
    AdjustedContent × Nat :=
  let currentTokens : Int := (est (toMessages system history prompt) : Int)
  if currentTokens ≤ targetTokens then
    (⟨system, history, prompt⟩, 0)
  else
    match fuel with
    | 0 => (⟨system, history, prompt⟩, 0)
    | fuel' + 1 =>
      let tokensOver : Nat := (currentTokens - targetTokens).toNat
      let charsToRemove : Nat := charsToRemoveFor tokensOver
      if 1 < history.length then
        let r := adjustContentAux est targetTokens fuel' system history.tail prompt
        (r.1, r.2 + 1)
      else if 50 < system.length then
        let trimLength : Nat := min charsToRemove (system.length - 50)
        let r := adjustContentAux est targetTokens fuel'
          (system.take (system.length - trimLength)) history prompt
        (r.1, r.2 + 1)
      else if 50 < prompt.length then
        let trimLength : Nat := min charsToRemove (prompt.length - 50)
        let r := adjustContentAux est targetTokens fuel' system history
          (prompt.take (prompt.length - trimLength))
        (r.1, r.2 + 1)
      else (⟨system, history, prompt⟩, 0)

/-- AIService.adjustContent (ai.service.js lines 424-486).  The source gives
`reservedTokens` a default of 100; every caller in the repository passes it
explicitly, and we make it a required argument. -/
def adjustContent (est : List Message → Nat) (system : List Char)
    (history : List Message) (prompt : List Char)
    (contextWindow reservedTokens : Int) : AdjustedContent :=
  (adjustContentAux est (contextWindow - reservedTokens) 100 system history prompt).1

/-- Number of trimming actions performed by `adjustContent` on the given
input (instrumentation of the same loop; the loop body is shared with
`adjustContent` via `adjustContentAux`). -/
def adjustContentIterations (est : List Message → Nat) (system : List Char)
    (history : List Message) (prompt : List Char)
    (contextWindow reservedTokens : Int) : Nat :=
  (adjustContentAux est (contextWindow - reservedTokens) 100 system history prompt).2

/-- Sample token estimator used to evaluate the definitions on closed inputs:
total content length (any estimator-shaped function works for the parametric
theorems; the repository's actual estimator is the external npm package). -/
def estChars (ms : List Message) : Nat :=
  ms.foldr (fun m acc => m.content.length + acc) 0

/-- Error taxonomy of the service, abstracting the `throw new Error(...)`
sites.  The source's catch block re-throws with a message prefix
('Error procesando la solicitud: ...'); that wrapper preserves the error
identity and is elided here. -/
inductive AIError where
  | missingFields (field : String)
  | modelNotFound (model : String)
  | providerNotFound (model : String)
  | missingAuthToken (provider : String)
  | missingSchemaName
deriving Repr, DecidableEq

/-- Catalog entry from src/assets/data/ai-models.js: a model name and an
optional contextWindow (the source reads `modelInfo.contextWindow || 4096`,
so a missing or zero value falls back to 4096). -/
structure ModelDef where
  name : String
  contextWindow : Option Int
deriving Repr, DecidableEq

/-- The three provider credentials read from process.env at resolution time;
a JS falsy value (absent or empty string) counts as not configured. -/
structure Env where
  OPENAI_API_KEY : Option String
  PERPLEXITY_API_KEY : Option String
  GROQ_API_KEY : Option String
deriving Repr, DecidableEq

/-- The three static model catalogs imported by ai.service.js. -/
structure Catalogs where
  openAIModels : List ModelDef
  perplexityModels : List ModelDef
  groqModels : List ModelDef
deriving Repr, DecidableEq

/-- Resolved model information returned by solveModelInfo (the source spreads
the whole catalog entry; only the fields the service reads are kept). -/
structure ModelInfo where
  name : String
  provider : String
  authToken : String
  contextWindow : Int
deriving Repr, DecidableEq

/-- contextWindow = modelInfo.contextWindow || 4096 (ai.service.js line 385):
JS `||` falls back on the falsy values `undefined` and `0`. -/
def resolveContextWindow (cw : Option Int) : Int :=
  match cw with
  | some c => if c = 0 then 4096 else c
  | none => 4096

/-- AIService.solveModelInfo (ai.service.js lines 357-393): find the model in
the concatenated catalogs, determine provider and credential by catalog
membership (in the order openai, perplexity, groq), fail if the credential is
JS-falsy, and resolve the context window. -/
def solveModelInfo (cat : Catalogs) (env : Env) (model : String) :
    Except AIError ModelInfo :=
  let allModels := cat.openAIModels ++ cat.perplexityModels ++ cat.groqModels
  match allModels.find? (fun m => m.name == model) with
  | none => .error (.modelNotFound model)
  | some modelInfo =>
    let pa : Except AIError (String × Option String) :=
      if cat.openAIModels.any (fun m => m.name == model) then
        .ok ("openai", env.OPENAI_API_KEY)
      else if cat.perplexityModels.any (fun m => m.name == model) then
        .ok ("perplexity", env.PERPLEXITY_API_KEY)
      else if cat.groqModels.any (fun m => m.name == model) then
        .ok ("groq", env.GROQ_API_KEY)
      else
        .error (.providerNotFound model)
    match pa with
    | .error e => .error e
    | .ok (provider, none) => .error (.missingAuthToken provider)
    | .ok (provider, some authToken) =>
      if authToken == "" then .error (.missingAuthToken provider)
      else
        .ok ⟨modelInfo.name, provider, authToken,
          resolveContextWindow modelInfo.contextWindow⟩

/-- Opaque payload of a tool/function declaration (only its presence and
count matter to this core). -/
abbrev Tool := String

/-- Opaque structured-output schema payload (passed through verbatim). -/
abbrev Schema := String

/-- The json_schema member of response_format (ai.service.js lines 309-313). -/
structure JsonSchemaSpec where
  name : String
  schema : Schema
  strict : Bool
deriving Repr, DecidableEq

/-- requestData.response_format (ai.service.js lines 307-314). -/
structure ResponseFormat where
  type : String
  json_schema : JsonSchemaSpec
deriving Repr, DecidableEq

/-- The outbound request payload (ai.service.js lines 292-323).  The numeric
pass-through fields temperature, top_p, frequency_penalty and presence_penalty
are copied verbatim from the input and carry no logic; they are elided. -/
structure RequestData where
  model : String
  messages : List Message
  max_tokens : Int
  stream : Bool
  response_format : Option ResponseFormat
  tools : Option (List Tool)
  tool_choice : Option String
  stop : Option String
deriving Repr, DecidableEq

/-- The caller-supplied fields of `data` that the embedded logic reads
(ai.service.js lines 248-264).  `none` models an absent (undefined) field. -/
structure SendMessageData where
  model : Option String
  system : List Char
  prompt : Option (List Char)
  stream : Bool
  history : List Message
  max_tokens : Option Int
  stop : String
  tools : Option (List Tool)
  toolChoice : Option String
  json_schema_name : Option String
  json_schema : Option Schema
deriving Repr, DecidableEq

/-- reservedTokens = (Array.isArray(tools) && tools.length > 0)
? tools.length * 150 : 0 (ai.service.js line 278). -/
def computeReservedTokens (tools : Option (List Tool)) : Int :=
  match tools with
  | some ts => if 0 < ts.length then (ts.length : Int) * 150 else 0
  | none => 0

/-- Request assembly of sendMessage after model resolution (ai.service.js
lines 278-323): budget the content, rebuild the message list, compute
max_tokens (`max_tokens || maxTokensCalculation`, so a supplied 0 is falsy
and falls back to the calculation), validate the json_schema/name pairing,
and attach tools and stop when applicable. -/
def buildRequestData (est : List Message → Nat) (modelInfo : ModelInfo)
    (model : String) (data : SendMessageData) (prompt0 : List Char) :
    Except AIError RequestData :=
  let contextWindow := modelInfo.contextWindow
  let reservedTokens := computeReservedTokens data.tools
  let adjusted := adjustContent est data.system data.history prompt0
    contextWindow reservedTokens
  let messages := toMessages adjusted.system adjusted.history adjusted.prompt
  let maxTokensCalculation : Int :=
    contextWindow - (est messages : Int) - reservedTokens
  let maxTokens : Int :=
    match data.max_tokens with
    | some v => if v = 0 then maxTokensCalculation else v
    | none => maxTokensCalculation
  let withTools : Bool :=
    match data.tools with
    | some ts => decide (0 < ts.length) && modelInfo.provider == "openai" && !data.stream
    | none => false
  let base : Option ResponseFormat → RequestData := fun rf =>
    { model := model
      messages := messages
      max_tokens := maxTokens
      stream := data.stream
      response_format := rf
      tools := if withTools then data.tools else none
      tool_choice := if withTools then data.toolChoice else none
      stop := if data.stop == "" then none else some data.stop }
  match data.json_schema with
  | some sch =>
    match data.json_schema_name with
    | none => .error .missingSchemaName
    | some nm =>
      if nm == "" then .error .missingSchemaName
      else .ok (base (some ⟨"json_schema", ⟨nm, sch, true⟩⟩))
  | none => .ok (base none)

/-- AIService.sendMessage (ai.service.js lines 247-347) up to the outbound
axios.post: validate the required fields (JS-falsy model or prompt), resolve
the model, then assemble the request.  `.ok req` is the payload that would be
posted; `.error e` means the call aborts before any network activity. -/
def sendMessage (est : List Message → Nat) (cat : Catalogs) (env : Env)
    (data : SendMessageData) : Except AIError RequestData :=
  match data.model with
  | none => .error (.missingFields "model")
  | some model =>
    if model == "" then .error (.missingFields "model")
    else
      match data.prompt with
      | none => .error (.missingFields "prompt")
      | some prompt0 =>
        if prompt0.isEmpty then .error (.missingFields "prompt")
        else
          match solveModelInfo cat env model with
          | .error e => .error e
          | .ok modelInfo => buildRequestData est modelInfo model data prompt0

/-- Fixture: a 60-character text, above the 50-character floor. -/
def sampleLongText : List Char := List.replicate 60 'a'

/-- Fixture: a single history entry. -/
def sampleMsg : Message := ⟨"user", ['x']⟩

/-- Fixture: catalogs with a single openai model of context window 100. -/
def catSample : Catalogs := ⟨[⟨"gpt-test", some 100⟩], [], []⟩

/-- Fixture: environment with only the openai credential configured. -/
def envSample : Env := ⟨some "k", none, none⟩

/-- Fixture: environment with no credential configured. -/
def envEmpty : Env := ⟨none, none, none⟩

/-- Fixture: resolved model information for catSample/envSample. -/
def miSample : ModelInfo := ⟨"gpt-test", "openai", "k", 100⟩

/-- Fixture: a minimal valid call with max_tokens supplied as 0. -/
def dataZeroMax : SendMessageData :=
  ⟨some "gpt-test", ['s'], some ['p'], false, [], some 0, "", none, none, none, none⟩

/-- Fixture: a minimal valid call with no max_tokens. -/
def dataNoMax : SendMessageData :=
  ⟨some "gpt-test", ['s'], some ['p'], false, [], none, "", none, none, none, none⟩

/-- Fixture: a call supplying a json_schema but no schema name. -/
def dataSchemaNoName : SendMessageData :=
  ⟨some "gpt-test", ['s'], some ['p'], false, [], none, "", none, none, none, some "sch"⟩

/-- Fixture: a call supplying both a json_schema and a schema name. -/
def dataSchemaNamed : SendMessageData :=
  ⟨some "gpt-test", ['s'], some ['p'], false, [], none, "", none, none,
    some "nm", some "sch"⟩

/-- Fixture: the request assembled for dataNoMax under catSample/envSample
(context window 100, estimate 2, reserved 0, so max_tokens 98). -/
def reqNoMax : RequestData :=
  ⟨"gpt-test", [⟨"system", ['s']⟩, ⟨"user", ['p']⟩], 98, false, none, none,
    none, none⟩


/-- Unfolding lemma: when the current estimate already fits the target, the
loop body is not entered and the input is returned with zero trims. -/
theorem adjustContentAux_of_le (est : List Message → Nat) (t : Int) (fuel : Nat)
    (s : List Char) (h : List Message) (p : List Char)
    (hle : (est (toMessages s h p) : Int) ≤ t) :
    adjustContentAux est t fuel s h p = (⟨s, h, p⟩, 0) := by
  rw [adjustContentAux.eq_def]
  simp [hle]

/-- Unfolding lemma: with the iteration budget exhausted the loop breaks and
returns the current state. -/
theorem adjustContentAux_zero_of_gt (est : List Message → Nat) (t : Int)
    (s : List Char) (h : List Message) (p : List Char)
    (hgt : t < (est (toMessages s h p) : Int)) :
    adjustContentAux est t 0 s h p = (⟨s, h, p⟩, 0) := by
  rw [adjustContentAux.eq_def]
  simp [not_le.mpr hgt]

/-- Unfolding lemma for the priority-1 branch: over target and more than one
history entry left, the iteration drops the front history entry and touches
nothing else. -/
theorem adjustContentAux_succ_hist (est : List Message → Nat) (t : Int) (fuel : Nat)
    (s : List Char) (h : List Message) (p : List Char)
    (hgt : t < (est (toMessages s h p) : Int)) (hh : 1 < h.length) :
    adjustContentAux est t (fuel + 1) s h p =
      ((adjustContentAux est t fuel s h.tail p).1,
       (adjustContentAux est t fuel s h.tail p).2 + 1) := by
  rw [adjustContentAux.eq_def]
  simp [not_le.mpr hgt, hh]

/-- Unfolding lemma for the priority-2 branch: over target, at most one
history entry, system longer than 50 characters — the iteration trims the
system text from its end and touches nothing else. -/
theorem adjustContentAux_succ_system (est : List Message → Nat) (t : Int) (fuel : Nat)
    (s : List Char) (h : List Message) (p : List Char)
    (hgt : t < (est (toMessages s h p) : Int)) (hh : ¬ 1 < h.length)
    (hs : 50 < s.length) :
    adjustContentAux est t (fuel + 1) s h p =
      ((adjustContentAux est t fuel
          (s.take (s.length -
            min (charsToRemoveFor ((est (toMessages s h p) : Int) - t).toNat)
              (s.length - 50))) h p).1,
       (adjustContentAux est t fuel
          (s.take (s.length -
            min (charsToRemoveFor ((est (toMessages s h p) : Int) - t).toNat)
              (s.length - 50))) h p).2 + 1) := by
  rw [adjustContentAux.eq_def]
  simp [not_le.mpr hgt, hh, hs]

/-- Unfolding lemma for the priority-3 branch: over target, at most one
history entry, system at most 50 characters, prompt longer than 50 — the
iteration trims the prompt from its end and touches nothing else. -/
theorem adjustContentAux_succ_prompt (est : List Message → Nat) (t : Int) (fuel : Nat)
    (s : List Char) (h : List Message) (p : List Char)
    (hgt : t < (est (toMessages s h p) : Int)) (hh : ¬ 1 < h.length)
    (hs : ¬ 50 < s.length) (hp : 50 < p.length) :
    adjustContentAux est t (fuel + 1) s h p =
      ((adjustContentAux est t fuel s h
          (p.take (p.length -
            min (charsToRemoveFor ((est (toMessages s h p) : Int) - t).toNat)
              (p.length - 50)))).1,
       (adjustContentAux est t fuel s h
          (p.take (p.length -
            min (charsToRemoveFor ((est (toMessages s h p) : Int) - t).toNat)
              (p.length - 50)))).2 + 1) := by
  rw [adjustContentAux.eq_def]
  simp [not_le.mpr hgt, hh, hs, hp]

/-- Unfolding lemma for the exhausted branch: nothing can be reduced, so the
loop breaks returning the current state. -/
theorem adjustContentAux_succ_stuck (est : List Message → Nat) (t : Int) (fuel : Nat)
    (s : List Char) (h : List Message) (p : List Char)
    (hgt : t < (est (toMessages s h p) : Int)) (hh : ¬ 1 < h.length)
    (hs : ¬ 50 < s.length) (hp : ¬ 50 < p.length) :
    adjustContentAux est t (fuel + 1) s h p = (⟨s, h, p⟩, 0) := by
  rw [adjustContentAux.eq_def]
  simp [not_le.mpr hgt, hh, hs, hp]

/-- Invariant preservation through the budgeting loop: any property of the
working state that each of the three trimming actions preserves holds of the
loop's result. -/
theorem adjustContentAux_invariant (est : List Message → Nat) (t : Int)
    (P : List Char → List Message → List Char → Prop)
    (hhist : ∀ s h p, 1 < h.length → P s h p → P s h.tail p)
    (hsys : ∀ s h p c, ¬ 1 < h.length → 50 < s.length → P s h p →
      P (s.take (s.length - min c (s.length - 50))) h p)
    (hpr : ∀ s h p c, ¬ 1 < h.length → ¬ 50 < s.length → 50 < p.length → P s h p →
      P s h (p.take (p.length - min c (p.length - 50)))) :
    ∀ fuel s h p, P s h p →
      P ((adjustContentAux est t fuel s h p).1).system
        ((adjustContentAux est t fuel s h p).1).history
        ((adjustContentAux est t fuel s h p).1).prompt := by
  intro fuel
  induction fuel with
  | zero =>
    intro s h p hP
    by_cases hle : (est (toMessages s h p) : Int) ≤ t
    · rw [adjustContentAux_of_le est t 0 s h p hle]; exact hP
    · rw [adjustContentAux_zero_of_gt est t s h p (not_le.mp hle)]; exact hP
  | succ n ih =>
    intro s h p hP
    by_cases hle : (est (toMessages s h p) : Int) ≤ t
    · rw [adjustContentAux_of_le est t (n + 1) s h p hle]; exact hP
    · have hgt := not_le.mp hle
      by_cases hh : 1 < h.length
      · rw [adjustContentAux_succ_hist est t n s h p hgt hh]
        exact ih s h.tail p (hhist s h p hh hP)
      · by_cases hs : 50 < s.length
        · rw [adjustContentAux_succ_system est t n s h p hgt hh hs]
          exact ih _ h p (hsys s h p _ hh hs hP)
        · by_cases hp : 50 < p.length
          · rw [adjustContentAux_succ_prompt est t n s h p hgt hh hs hp]
            exact ih s h _ (hpr s h p _ hh hs hp hP)
          · rw [adjustContentAux_succ_stuck est t n s h p hgt hh hs hp]
            exact hP

/-- The loop performs at most `fuel` trimming actions. -/
theorem adjustContentAux_count_le (est : List Message → Nat) (t : Int) :
    ∀ fuel s h p, (adjustContentAux est t fuel s h p).2 ≤ fuel := by
  intro fuel
  induction fuel with
  | zero =>
    intro s h p
    by_cases hle : (est (toMessages s h p) : Int) ≤ t
    · rw [adjustContentAux_of_le est t 0 s h p hle]
    · rw [adjustContentAux_zero_of_gt est t s h p (not_le.mp hle)]
  | succ n ih =>
    intro s h p
    by_cases hle : (est (toMessages s h p) : Int) ≤ t
    · rw [adjustContentAux_of_le est t (n + 1) s h p hle]
      exact Nat.zero_le _
    · have hgt := not_le.mp hle
      by_cases hh : 1 < h.length
      · rw [adjustContentAux_succ_hist est t n s h p hgt hh]
        exact Nat.succ_le_succ (ih s h.tail p)
      · by_cases hs : 50 < s.length
        · rw [adjustContentAux_succ_system est t n s h p hgt hh hs]
          exact Nat.succ_le_succ (ih _ h p)
        · by_cases hp : 50 < p.length
          · rw [adjustContentAux_succ_prompt est t n s h p hgt hh hs hp]
            exact Nat.succ_le_succ (ih s h _)
          · rw [adjustContentAux_succ_stuck est t n s h p hgt hh hs hp]
            exact Nat.zero_le _

/-- Arithmetic bridge: the Nat-division form `(n + 1) / 2` used in `chunkSize`
is exactly the ceiling `Math.ceil(n * 0.5)` computed by the source. -/
theorem chunkSize_eq_ceil (n : Nat) : chunkSize n = Nat.ceil ((n : ℚ) * (1 / 2)) := by
  rw [chunkSize]
  rcases Nat.even_or_odd n with ⟨m, hm⟩ | ⟨m, hm⟩
  · subst hm
    have hcast : ((m + m : Nat) : ℚ) * (1 / 2) = (m : ℚ) := by push_cast; ring
    rw [hcast, Nat.ceil_natCast]
    omega
  · subst hm
    have hcast : ((2 * m + 1 : Nat) : ℚ) * (1 / 2) = (m : ℚ) + 1 / 2 := by
      push_cast; ring
    rw [hcast]
    have hceil : Nat.ceil ((m : ℚ) + 1 / 2) = m + 1 := by
      rw [Nat.ceil_eq_iff (by omega)]
      constructor
      · push_cast
        linarith
      · push_cast
        linarith
    rw [hceil]
    omega

/-- C1: every adjustContent loop iteration applies exactly one trimming
action in strict priority order — with the estimate over target, a history of
more than one entry loses exactly its front entry while system and prompt are
untouched that iteration; with at most one history entry and a system longer
than 50 characters only the system is trimmed; only otherwise is the prompt
trimmed.  Moreover a history with exactly one entry is never touched: the
full call returns it unchanged, for any input. -/
theorem adjustContent_priority_order (est : List Message → Nat) (t : Int) (fuel : Nat)
    (s : List Char) (h : List Message) (p : List Char) (cw rt : Int) :
    (t < (est (toMessages s h p) : Int) → 1 < h.length →
      adjustContentAux est t (fuel + 1) s h p =
        ((adjustContentAux est t fuel s h.tail p).1,
         (adjustContentAux est t fuel s h.tail p).2 + 1)) ∧
    (t < (est (toMessages s h p) : Int) → h.length ≤ 1 → 50 < s.length →
      adjustContentAux est t (fuel + 1) s h p =
        ((adjustContentAux est t fuel
            (s.take (s.length -
              min (charsToRemoveFor ((est (toMessages s h p) : Int) - t).toNat)
                (s.length - 50))) h p).1,
         (adjustContentAux est t fuel
            (s.take (s.length -
              min (charsToRemoveFor ((est (toMessages s h p) : Int) - t).toNat)
                (s.length - 50))) h p).2 + 1)) ∧
    (t < (est (toMessages s h p) : Int) → h.length ≤ 1 → s.length ≤ 50 →
      50 < p.length →
      adjustContentAux est t (fuel + 1) s h p =
        ((adjustContentAux est t fuel s h
            (p.take (p.length -
              min (charsToRemoveFor ((est (toMessages s h p) : Int) - t).toNat)
                (p.length - 50)))).1,
         (adjustContentAux est t fuel s h
            (p.take (p.length -
              min (charsToRemoveFor ((est (toMessages s h p) : Int) - t).toNat)
                (p.length - 50)))).2 + 1)) ∧
    (h.length = 1 → (adjustContent est s h p cw rt).history = h) := by
  refine ⟨?_, ?_, ?_, ?_⟩
  · intro hgt hh
    exact adjustContentAux_succ_hist est t fuel s h p hgt hh
  · intro hgt hh hs
    exact adjustContentAux_succ_system est t fuel s h p hgt (not_lt.mpr hh) hs
  · intro hgt hh hs hp
    exact adjustContentAux_succ_prompt est t fuel s h p hgt (not_lt.mpr hh)
      (not_lt.mpr hs) hp
  · intro h1
    have inv := adjustContentAux_invariant est (cw - rt)
      (fun _ h' _ => h' = h)
      (fun s' h' p' hh' hP => absurd (hP ▸ hh') (by omega))
      (fun s' h' p' c hh' hs' hP => hP)
      (fun s' h' p' c hh' hs' hp' hP => hP)
      100 s h p rfl
    exact inv

/-- C3: for every input and every token estimator, the adjustContent loop
terminates, performing at most 100 trimming iterations before the
iteration-ceiling check forces an exit; it always returns a value (the
partial reduction achieved) and never raises an error. -/
theorem adjustContent_terminates_within_100 (est : List Message → Nat)
    (s : List Char) (h : List Message) (p : List Char) (cw rt : Int) :
    adjustContentIterations est s h p cw rt ≤ 100 :=
  adjustContentAux_count_le est (cw - rt) 100 s h p

/-- C4: adjustContent is the identity on already-fitting input — when the
estimate of [system-message, ...history, prompt-message] is at most
contextWindow minus reservedTokens, the call returns the input triple
unchanged, performing zero trimming iterations. -/
theorem adjustContent_identity_when_fitting (est : List Message → Nat)
    (s : List Char) (h : List Message) (p : List Char) (cw rt : Int)
    (hle : (est (toMessages s h p) : Int) ≤ cw - rt) :
    adjustContent est s h p cw rt = ⟨s, h, p⟩ ∧
    adjustContentIterations est s h p cw rt = 0 := by
  have heq := adjustContentAux_of_le est (cw - rt) 100 s h p hle
  constructor
  · show (adjustContentAux est (cw - rt) 100 s h p).1 = _
    rw [heq]
  · show (adjustContentAux est (cw - rt) 100 s h p).2 = 0
    rw [heq]

/-- C2: floor invariant of adjustContent — a system (resp. prompt) longer
than 50 characters is never budgeted below 50 characters, and a system
(resp. prompt) of at most 50 characters is returned completely untouched. -/
theorem adjustContent_floor_invariant (est : List Message → Nat)
    (s : List Char) (h : List Message) (p : List Char) (cw rt : Int) :
    (50 < s.length → 50 ≤ (adjustContent est s h p cw rt).system.length) ∧
    (s.length ≤ 50 → (adjustContent est s h p cw rt).system = s) ∧
    (50 < p.length → 50 ≤ (adjustContent est s h p cw rt).prompt.length) ∧
    (p.length ≤ 50 → (adjustContent est s h p cw rt).prompt = p) := by
  refine ⟨?_, ?_, ?_, ?_⟩
  · intro hs0
    have inv := adjustContentAux_invariant est (cw - rt)
      (fun s' _ _ => 50 ≤ s'.length)
      (fun s' h' p' hh' hP => hP)
      (fun s' h' p' c hh' hs' hP => by
        simp only [List.length_take]
        omega)
      (fun s' h' p' c hh' hs' hp' hP => hP)
      100 s h p (le_of_lt hs0)
    exact inv
  · intro hs0
    have inv := adjustContentAux_invariant est (cw - rt)
      (fun s' _ _ => s' = s)
      (fun s' h' p' hh' hP => hP)
      (fun s' h' p' c hh' hs' hP => absurd (hP ▸ hs') (by omega))
      (fun s' h' p' c hh' hs' hp' hP => hP)
      100 s h p rfl
    exact inv
  · intro hp0
    have inv := adjustContentAux_invariant est (cw - rt)
      (fun _ _ p' => 50 ≤ p'.length)
      (fun s' h' p' hh' hP => hP)
      (fun s' h' p' c hh' hs' hP => hP)
      (fun s' h' p' c hh' hs' hp' hP => by
        simp only [List.length_take]
        omega)
      100 s h p (le_of_lt hp0)
    exact inv
  · intro hp0
    have inv := adjustContentAux_invariant est (cw - rt)
      (fun _ _ p' => p' = p)
      (fun s' h' p' hh' hP => hP)
      (fun s' h' p' c hh' hs' hP => hP)
      (fun s' h' p' c hh' hs' hp' hP => absurd (hP ▸ hp') (by omega))
      100 s h p rfl
    exact inv

/-- C10: structural invariant of adjustContent — the returned history is a
contiguous tail segment of the input history (entries are removed only from
the front, survivors keep order and contents), the returned system is an
initial segment of the input system, and the returned prompt is an initial
segment of the input prompt. -/
theorem adjustContent_structural_invariant (est : List Message → Nat)
    (s : List Char) (h : List Message) (p : List Char) (cw rt : Int) :
    (∃ n, (adjustContent est s h p cw rt).history = h.drop n) ∧
    (∃ k, (adjustContent est s h p cw rt).system = s.take k) ∧
    (∃ m, (adjustContent est s h p cw rt).prompt = p.take m) := by
  have inv := adjustContentAux_invariant est (cw - rt)
    (fun s' h' p' =>
      (∃ n, h' = h.drop n) ∧ (∃ k, s' = s.take k) ∧ (∃ m, p' = p.take m))
    (fun s' h' p' hh' hP => by
      obtain ⟨⟨n, hn⟩, hk, hm⟩ := hP
      refine ⟨⟨n + 1, ?_⟩, hk, hm⟩
      rw [hn, ← List.drop_drop, List.drop_one])
    (fun s' h' p' c hh' hs' hP => by
      obtain ⟨hn, ⟨k, hk⟩, hm⟩ := hP
      refine ⟨hn, ⟨min (s'.length - min c (s'.length - 50)) k, ?_⟩, hm⟩
      rw [hk, List.take_take, List.length_take])
    (fun s' h' p' c hh' hs' hp' hP => by
      obtain ⟨hn, hk, ⟨m, hm⟩⟩ := hP
      refine ⟨hn, hk, ⟨min (p'.length - min c (p'.length - 50)) m, ?_⟩⟩
      rw [hm, List.take_take, List.length_take])
    100 s h p
    ⟨⟨0, by simp⟩, ⟨s.length, by simp⟩, ⟨p.length, by simp⟩⟩
  exact inv

/-- C5: on every iteration where the system-trim (resp. prompt-trim) branch
applies, the amount removed from the end of the text is exactly
min(ceil((currentTokens - targetTokens) * 0.5) * 4, length - 50) characters,
where currentTokens is the estimate at the top of that iteration (the first
conjunct ties the Nat-division form of chunkSize to the source's ceiling). -/
theorem adjustContent_trim_amount (est : List Message → Nat) (t : Int) (fuel : Nat)
    (s : List Char) (h : List Message) (p : List Char)
    (hgt : t < (est (toMessages s h p) : Int)) :
    (∀ n : Nat, charsToRemoveFor n = Nat.ceil ((n : ℚ) * (1 / 2)) * 4) ∧
    (h.length ≤ 1 → 50 < s.length →
      adjustContentAux est t (fuel + 1) s h p =
        ((adjustContentAux est t fuel
            (s.take (s.length -
              min (charsToRemoveFor ((est (toMessages s h p) : Int) - t).toNat)
                (s.length - 50))) h p).1,
         (adjustContentAux est t fuel
            (s.take (s.length -
              min (charsToRemoveFor ((est (toMessages s h p) : Int) - t).toNat)
                (s.length - 50))) h p).2 + 1) ∧
      (s.take (s.length -
          min (charsToRemoveFor ((est (toMessages s h p) : Int) - t).toNat)
            (s.length - 50))).length =
        s.length -
          min (charsToRemoveFor ((est (toMessages s h p) : Int) - t).toNat)
            (s.length - 50)) ∧
    (h.length ≤ 1 → s.length ≤ 50 → 50 < p.length →
      adjustContentAux est t (fuel + 1) s h p =
        ((adjustContentAux est t fuel s h
            (p.take (p.length -
              min (charsToRemoveFor ((est (toMessages s h p) : Int) - t).toNat)
                (p.length - 50)))).1,
         (adjustContentAux est t fuel s h
            (p.take (p.length -
              min (charsToRemoveFor ((est (toMessages s h p) : Int) - t).toNat)
                (p.length - 50)))).2 + 1) ∧
      (p.take (p.length -
          min (charsToRemoveFor ((est (toMessages s h p) : Int) - t).toNat)
            (p.length - 50))).length =
        p.length -
          min (charsToRemoveFor ((est (toMessages s h p) : Int) - t).toNat)
            (p.length - 50)) := by
  refine ⟨?_, ?_, ?_⟩
  · intro n
    rw [charsToRemoveFor, chunkSize_eq_ceil]
  · intro hh hs
    refine ⟨adjustContentAux_succ_system est t fuel s h p hgt (not_lt.mpr hh) hs, ?_⟩
    simp only [List.length_take]
    omega
  · intro hh hs hp
    refine ⟨adjustContentAux_succ_prompt est t fuel s h p hgt (not_lt.mpr hh)
      (not_lt.mpr hs) hp, ?_⟩
    simp only [List.length_take]
    omega

/-- C7: the reservedTokens value passed to the Content Budgeter equals 150
times the number of declared tools when a non-empty tool list is supplied,
and 0 when zero tools are supplied (buildRequestData budgets with
computeReservedTokens data.tools by definition). -/
theorem reservedTokens_accounting (ts : List Tool) :
    (0 < ts.length → computeReservedTokens (some ts) = 150 * (ts.length : Int)) ∧
    computeReservedTokens (some []) = 0 ∧
    computeReservedTokens none = 0 := by
  refine ⟨?_, rfl, rfl⟩
  intro hlen
  simp only [computeReservedTokens, if_pos hlen]
  ring

/-- C6 counterexample: the claim "max_tokens equals the caller-supplied value
whenever one is supplied" fails at a supplied value of 0.  With catSample
(context window 100), estChars (estimate 2 on the assembled messages) and no
tools, the calculation is 100 - 2 - 0 = 98, and the outbound request built
for dataZeroMax (which supplies max_tokens = 0) carries 98, not the supplied
0: JS `max_tokens || maxTokensCalculation` discards the falsy 0. -/
theorem sendMessage_max_tokens_zero_counterexample :
    dataZeroMax.max_tokens = some 0 ∧
    (sendMessage estChars catSample envSample dataZeroMax).toOption.map
      (fun r => r.max_tokens) = some 98 ∧
    (sendMessage estChars catSample envSample dataZeroMax).toOption.map
      (fun r => r.max_tokens) ≠ some 0 := by
  refine ⟨rfl, by decide, by decide⟩

/-- C6 amended: the outbound request's max_tokens equals the caller-supplied
value when a nonzero one is supplied; a supplied 0 is JS-falsy and is treated
exactly like an absent value, in which case max_tokens equals
contextWindow - estimate(messages) - reservedTokens computed on the
post-budgeting messages, with no clamping or sign validation (the value may
be zero or negative). -/
theorem sendMessage_max_tokens_amended (est : List Message → Nat)
    (mi : ModelInfo) (model : String) (data : SendMessageData)
    (prompt0 : List Char) (req : RequestData)
    (hok : buildRequestData est mi model data prompt0 = .ok req) :
    (∀ v, data.max_tokens = some v → v ≠ 0 → req.max_tokens = v) ∧
    ((data.max_tokens = none ∨ data.max_tokens = some 0) →
      req.max_tokens =
        mi.contextWindow - (est req.messages : Int) -
          computeReservedTokens data.tools) := by
  simp only [buildRequestData] at hok
  split at hok
  · split at hok
    · exact absurd hok (by simp)
    · split at hok
      · exact absurd hok (by simp)
      · injection hok with h
        subst h
        constructor
        · intro v hv hv0
          simp [hv, hv0]
        · intro hv
          rcases hv with hv | hv <;> simp [hv]
  · injection hok with h
    subst h
    constructor
    · intro v hv hv0
      simp [hv, hv0]
    · intro hv
      rcases hv with hv | hv <;> simp [hv]

/-- C8: supplying a structured-output json_schema without a schema name (the
field absent, or the JS-falsy empty string) makes the request assembly fail
with MissingSchemaName — so sendMessage aborts before any network call — and
supplying both attaches response_format = {type: json_schema, json_schema:
{name, schema, strict: true}} to the outbound request. -/
theorem sendMessage_schema_name_pairing (est : List Message → Nat)
    (cat : Catalogs) (env : Env) (mi : ModelInfo) (model : String)
    (data : SendMessageData) (prompt0 : List Char) :
    (∀ sch, data.json_schema = some sch →
      (data.json_schema_name = none ∨ data.json_schema_name = some "") →
      buildRequestData est mi model data prompt0 = .error .missingSchemaName) ∧
    (∀ sch nm req, data.json_schema = some sch →
      data.json_schema_name = some nm → nm ≠ "" →
      buildRequestData est mi model data prompt0 = .ok req →
      req.response_format = some ⟨"json_schema", ⟨nm, sch, true⟩⟩) ∧
    (∀ sch, data.model = some model → model ≠ "" →
      data.prompt = some prompt0 → prompt0 ≠ [] →
      solveModelInfo cat env model = .ok mi →
      data.json_schema = some sch → data.json_schema_name = none →
      sendMessage est cat env data = .error .missingSchemaName) := by
  refine ⟨?_, ?_, ?_⟩
  · intro sch hsch hname
    rcases hname with hname | hname <;>
      simp [buildRequestData, hsch, hname]
  · intro sch nm req hsch hnm hne hok
    simp only [buildRequestData, hsch, hnm] at hok
    rw [if_neg (by simp [hne])] at hok
    injection hok with h
    subst h
    rfl
  · intro sch hm hm' hp hp' hsolve hsch hname
    simp only [sendMessage, hm, hp]
    rw [if_neg (by simp [hm']), if_neg (by simp [hp']), hsolve]
    simp [buildRequestData, hsch, hname]

/-- C9: solveModelInfo fails with ModelNotFound for every model name absent
from all three provider catalogs, and with MissingAuthToken for every
resolvable model whose provider credential is not configured; and both
failures propagate directly out of sendMessage (no request is assembled, no
network call is reached, nothing is retried). -/
theorem solveModelInfo_errors (cat : Catalogs) (env : Env) (model : String)
    (est : List Message → Nat) (data : SendMessageData) (prompt0 : List Char) :
    ((∀ m, m ∈ cat.openAIModels ++ cat.perplexityModels ++ cat.groqModels →
        m.name ≠ model) →
      solveModelInfo cat env model = .error (.modelNotFound model)) ∧
    ((∃ m ∈ cat.openAIModels, m.name = model) → env.OPENAI_API_KEY = none →
      solveModelInfo cat env model = .error (.missingAuthToken "openai")) ∧
    ((¬ ∃ m ∈ cat.openAIModels, m.name = model) →
      (∃ m ∈ cat.perplexityModels, m.name = model) →
      env.PERPLEXITY_API_KEY = none →
      solveModelInfo cat env model = .error (.missingAuthToken "perplexity")) ∧
    ((¬ ∃ m ∈ cat.openAIModels, m.name = model) →
      (¬ ∃ m ∈ cat.perplexityModels, m.name = model) →
      (∃ m ∈ cat.groqModels, m.name = model) → env.GROQ_API_KEY = none →
      solveModelInfo cat env model = .error (.missingAuthToken "groq")) ∧
    (∀ e, data.model = some model → model ≠ "" →
      data.prompt = some prompt0 → prompt0 ≠ [] →
      solveModelInfo cat env model = .error e →
      sendMessage est cat env data = .error e) := by
  have memAll :
      ∀ m, m ∈ cat.openAIModels ∨ m ∈ cat.perplexityModels ∨ m ∈ cat.groqModels →
        m ∈ cat.openAIModels ++ cat.perplexityModels ++ cat.groqModels := by
    intro m hm
    simp only [List.mem_append]
    tauto
  refine ⟨?_, ?_, ?_, ?_, ?_⟩
  · intro habsent
    have hfind :
        (cat.openAIModels ++ cat.perplexityModels ++ cat.groqModels).find?
          (fun m => m.name == model) = none := by
      rw [List.find?_eq_none]
      intro x hx
      simp [habsent x hx]
    simp only [solveModelInfo]
    rw [hfind]
  · intro hmem henv
    obtain ⟨m0, hm0, hname0⟩ := hmem
    have hsome :
        ((cat.openAIModels ++ cat.perplexityModels ++ cat.groqModels).find?
          (fun m => m.name == model)).isSome := by
      rw [List.find?_isSome]
      exact ⟨m0, memAll m0 (Or.inl hm0), by simp [hname0]⟩
    obtain ⟨mi0, hfind⟩ := Option.isSome_iff_exists.mp hsome
    have hany : cat.openAIModels.any (fun m => m.name == model) = true :=
      List.any_eq_true.mpr ⟨m0, hm0, by simp [hname0]⟩
    simp only [solveModelInfo]
    rw [hfind, if_pos hany, henv]
  · intro hno1 hmem henv
    obtain ⟨m0, hm0, hname0⟩ := hmem
    have hsome :
        ((cat.openAIModels ++ cat.perplexityModels ++ cat.groqModels).find?
          (fun m => m.name == model)).isSome := by
      rw [List.find?_isSome]
      exact ⟨m0, memAll m0 (Or.inr (Or.inl hm0)), by simp [hname0]⟩
    obtain ⟨mi0, hfind⟩ := Option.isSome_iff_exists.mp hsome
    have hany1 : cat.openAIModels.any (fun m => m.name == model) = false := by
      rw [List.any_eq_false]
      intro x hx
      simp only [beq_iff_eq]
      exact fun heq => hno1 ⟨x, hx, heq⟩
    have hany2 : cat.perplexityModels.any (fun m => m.name == model) = true :=
      List.any_eq_true.mpr ⟨m0, hm0, by simp [hname0]⟩
    simp only [solveModelInfo]
    rw [hfind, if_neg (by simp [hany1]), if_pos hany2, henv]
  · intro hno1 hno2 hmem henv
    obtain ⟨m0, hm0, hname0⟩ := hmem
    have hsome :
        ((cat.openAIModels ++ cat.perplexityModels ++ cat.groqModels).find?
          (fun m => m.name == model)).isSome := by
      rw [List.find?_isSome]
      exact ⟨m0, memAll m0 (Or.inr (Or.inr hm0)), by simp [hname0]⟩
    obtain ⟨mi0, hfind⟩ := Option.isSome_iff_exists.mp hsome
    have hany1 : cat.openAIModels.any (fun m => m.name == model) = false := by
      rw [List.any_eq_false]
      intro x hx
      simp only [beq_iff_eq]
      exact fun heq => hno1 ⟨x, hx, heq⟩
    have hany2 : cat.perplexityModels.any (fun m => m.name == model) = false := by
      rw [List.any_eq_false]
      intro x hx
      simp only [beq_iff_eq]
      exact fun heq => hno2 ⟨x, hx, heq⟩
    have hany3 : cat.groqModels.any (fun m => m.name == model) = true :=
      List.any_eq_true.mpr ⟨m0, hm0, by simp [hname0]⟩
    simp only [solveModelInfo]
    rw [hfind, if_neg (by simp [hany1]), if_neg (by simp [hany2]), if_pos hany3, henv]
  · intro e hm hm' hp hp' hsolve
    simp only [sendMessage, hm, hp]
    rw [if_neg (by simp [hm']), if_neg (by simp [hp']), hsolve]

/-- Witness for adjustContent_priority_order: with a two-entry history one
iteration drops exactly the front entry (system and prompt untouched), and a
one-entry history survives a full call unchanged. -/
theorem adjustContent_priority_order_witness :
    ((0 : Int) < (estChars (toMessages ['a'] [sampleMsg, sampleMsg] ['b']) : Int) ∧
      1 < [sampleMsg, sampleMsg].length ∧
      adjustContentAux estChars 0 1 ['a'] [sampleMsg, sampleMsg] ['b'] =
        ((adjustContentAux estChars 0 0 ['a'] [sampleMsg] ['b']).1,
         (adjustContentAux estChars 0 0 ['a'] [sampleMsg] ['b']).2 + 1)) ∧
    ([sampleMsg].length = 1 ∧
      (adjustContent estChars ['a'] [sampleMsg] ['b'] 0 0).history = [sampleMsg]) :=
  ⟨⟨by decide, by decide,
    (adjustContent_priority_order estChars 0 0 ['a'] [sampleMsg, sampleMsg] ['b'] 0 0).1
      (by decide) (by decide)⟩,
   ⟨rfl,
    (adjustContent_priority_order estChars 0 0 ['a'] [sampleMsg] ['b'] 0 0).2.2.2 rfl⟩⟩

/-- Witness for adjustContent_floor_invariant: a 60-character system trimmed
against target 0 stays at least 50 characters long. -/
theorem adjustContent_floor_invariant_witness :
    50 < sampleLongText.length ∧
    50 ≤ (adjustContent estChars sampleLongText [] ['b'] 0 0).system.length :=
  ⟨by decide,
   (adjustContent_floor_invariant estChars sampleLongText [] ['b'] 0 0).1 (by decide)⟩

/-- Witness for adjustContent_identity_when_fitting at a fitting input. -/
theorem adjustContent_identity_when_fitting_witness :
    (estChars (toMessages ['a'] [] ['b']) : Int) ≤ 100 - 0 ∧
    (adjustContent estChars ['a'] [] ['b'] 100 0 = ⟨['a'], [], ['b']⟩ ∧
      adjustContentIterations estChars ['a'] [] ['b'] 100 0 = 0) :=
  ⟨by decide,
   adjustContent_identity_when_fitting estChars ['a'] [] ['b'] 100 0 (by decide)⟩

/-- Witness for adjustContent_trim_amount: on a 60-character system at
target 0 the trimmed system's length drops by exactly the computed amount. -/
theorem adjustContent_trim_amount_witness :
    (0 : Int) < (estChars (toMessages sampleLongText [] ['b']) : Int) ∧
    ([] : List Message).length ≤ 1 ∧ 50 < sampleLongText.length ∧
    (sampleLongText.take (sampleLongText.length -
        min (charsToRemoveFor
            ((estChars (toMessages sampleLongText [] ['b']) : Int) - 0).toNat)
          (sampleLongText.length - 50))).length =
      sampleLongText.length -
        min (charsToRemoveFor
            ((estChars (toMessages sampleLongText [] ['b']) : Int) - 0).toNat)
          (sampleLongText.length - 50) :=
  ⟨by decide, by decide, by decide,
   ((adjustContent_trim_amount estChars 0 0 sampleLongText [] ['b'] (by decide)).2.1
      (by decide) (by decide)).2⟩

/-- Witness for sendMessage_max_tokens_amended: with no max_tokens supplied
the assembled request carries contextWindow - estimate - reservedTokens. -/
theorem sendMessage_max_tokens_amended_witness :
    buildRequestData estChars miSample "gpt-test" dataNoMax ['p'] = .ok reqNoMax ∧
    (dataNoMax.max_tokens = none ∨ dataNoMax.max_tokens = some 0) ∧
    reqNoMax.max_tokens =
      miSample.contextWindow - (estChars reqNoMax.messages : Int) -
        computeReservedTokens dataNoMax.tools :=
  ⟨rfl, Or.inl rfl,
   (sendMessage_max_tokens_amended estChars miSample "gpt-test" dataNoMax ['p']
      reqNoMax rfl).2 (Or.inl rfl)⟩

/-- Witness for reservedTokens_accounting on a one-tool list. -/
theorem reservedTokens_accounting_witness :
    0 < [("t" : Tool)].length ∧
    computeReservedTokens (some [("t" : Tool)]) = 150 * (([("t" : Tool)].length : Nat) : Int) :=
  ⟨by decide, (reservedTokens_accounting [("t" : Tool)]).1 (by decide)⟩

/-- Witness for sendMessage_schema_name_pairing: a schema with no name makes
sendMessage fail with MissingSchemaName. -/
theorem sendMessage_schema_name_pairing_witness :
    dataSchemaNoName.json_schema = some "sch" ∧
    dataSchemaNoName.json_schema_name = none ∧
    solveModelInfo catSample envSample "gpt-test" = .ok miSample ∧
    sendMessage estChars catSample envSample dataSchemaNoName =
      .error .missingSchemaName :=
  ⟨rfl, rfl, rfl,
   (sendMessage_schema_name_pairing estChars catSample envSample miSample "gpt-test"
      dataSchemaNoName ['p']).2.2 "sch" rfl (by decide) rfl (by decide) rfl rfl rfl⟩

/-- Witness for solveModelInfo_errors: a resolvable model with no configured
credential fails with MissingAuthToken. -/
theorem solveModelInfo_errors_witness :
    (∃ m ∈ catSample.openAIModels, m.name = "gpt-test") ∧
    envEmpty.OPENAI_API_KEY = none ∧
    solveModelInfo catSample envEmpty "gpt-test" =
      .error (.missingAuthToken "openai") :=
  ⟨⟨⟨"gpt-test", some 100⟩, by decide, rfl⟩, rfl,
   (solveModelInfo_errors catSample envEmpty "gpt-test" estChars dataNoMax ['p']).2.1
     ⟨⟨"gpt-test", some 100⟩, by decide, rfl⟩ rfl⟩
